import Mathlib

/-!
Verification development for the transformer-pipeline CLI
(`openapi-transformer-cli`).

The repository's `src/index.js` contains three near-duplicate variants of
the entry point; the definitions below embed, per claim, the variant the
claim's cited lines point at:
* the first (ESM, `--config` support): `readConfigFile`,
  `createTransformersForConfig`, `applyTransformers`, the
  `option:config` / `option:transformer` handlers;
* the second (ESM, current: `-t` only): `makeResolver`, `loadTransformer`,
  the attributed transform loop of `openapiTransformerMain`.

JavaScript values that the pipeline manipulates are modelled by
`JsonValue` (post-`JSON.parse` data: object field lists are in insertion
order with unique keys, since `JSON.parse` keeps the last duplicate).
Thrown errors are modelled by `JsError` (name + message); promises by
`Except` results supplied by the environment, plus an explicit delay
clock where completion order matters.
-/

namespace OpenapiTransformerCli

/-- JSON-like value as produced by `JSON.parse` (document, config file
contents, transformer arguments). Object fields are listed in insertion
order; keys are unique in parser output. -/
inductive JsonValue where
  | null
  | bool (b : Bool)
  | num (n : Int)
  | str (s : String)
  | arr (items : List JsonValue)
  | obj (fields : List (String × JsonValue))

/-- Thrown JavaScript error: constructor name and message. -/
structure JsError where
  name : String
  message : String
  deriving DecidableEq

/-- Parsed configuration as returned by `readConfigFile`: the
`transformers` array entries plus the `configFilePath` recorded from
`stream.path` (`none` when reading from stdin `-`). -/
structure Config where
  transformers : List JsonValue
  configFilePath : Option String
  deriving Inhabited

/-- Entry check of the `for (const transformer of transformers)` loop in
`readConfigFile` (src/index.js): a tuple needs at least one element with a
string first item; otherwise the entry must itself be a string. -/
def checkEntry : JsonValue → Option JsError
  | .arr [] => some ⟨"Error", "config.transformers tuples must at least 1 element"⟩
  | .arr (first :: _) =>
    match first with
    | .str _ => none
    | _ => some ⟨"TypeError", "config.transformers tuple first item must be a string"⟩
  | .str _ => none
  | _ => some ⟨"TypeError", "config.transformers items must be strings or Arrays"⟩

/-- First failing entry check over the `transformers` array, in order. -/
def checkEntries : List JsonValue → Option JsError
  | [] => none
  | t :: ts =>
    match checkEntry t with
    | some e => some e
    | none => checkEntries ts

/-- Embeds `readConfigFile` (src/index.js, first variant, lines 99-144):
validation of the already-parsed JSON config value. The `Object.keys`
loop rejects the first key other than `transformers`; a present
non-array `transformers` is a TypeError; the subsequent
`for (const transformer of transformers)` loop iterates `transformers`
even when the property is absent, so an absent `transformers` throws a
TypeError (iterating `undefined`). -/
def readConfigFile (config : JsonValue) (streamPath : Option String) :
    Except JsError Config :=
  match config with
  | .obj fields =>
    match fields.find? (fun kv => kv.1 != "transformers") with
    | some kv => .error ⟨"Error", "unrecognized key \x27" ++ kv.1 ++ "\x27 in config"⟩
    | none =>
      match List.lookup "transformers" fields with
      | none => .error ⟨"TypeError", "transformers is not iterable"⟩
      | some tv =>
        match tv with
        | .arr ts =>
          match checkEntries ts with
          | some e => .error e
          | none => .ok ⟨ts, streamPath⟩
        | _ => .error ⟨"TypeError", "config.transformers must be an Array"⟩
  | _ => .error ⟨"TypeError", "config file must contain a JSON object"⟩

/-- Transformer instance capability: `#transformOpenApi(openApi)` returns
the next document or throws/rejects (`await` makes sync and async
transformers indistinguishable to the pipeline). -/
abbrev Transformer := JsonValue → Except JsError JsonValue

/-- Error attribution of the transform loop (second variant, lines
607-619): `errTransformer.message += ` applying transformer ${spec}``. -/
def attributeError (e : JsError) (spec : String) : JsError :=
  { e with message := e.message ++ " applying transformer " ++ spec }

/-- Embeds the transform loop of the second-variant
`openapiTransformerMain` (lines 607-619): each `--transformer` value is
paired with the outcome of its (already started) `loadTransformer`
promise; the loop awaits each in declared order, invokes
`transformOpenApi` on the current document, and on any failure appends
the specifier to the message and rethrows. Instrumented with the list of
specifiers whose `transformOpenApi` was invoked. -/
def runTransformersTrace :
    List (String × Except JsError Transformer) → JsonValue →
    Except JsError JsonValue × List String
  | [], openApi => (.ok openApi, [])
  | (spec, transformerP) :: rest, openApi =>
    match transformerP with
    | .error e => (.error (attributeError e spec), [])
    | .ok transformer =>
      match transformer openApi with
      | .error e => (.error (attributeError e spec), [spec])
      | .ok next =>
        ((runTransformersTrace rest next).1,
          spec :: (runTransformersTrace rest next).2)

/-- Result of the transform loop (the document value or the attributed
error). -/
def runTransformers (ts : List (String × Except JsError Transformer))
    (openApi : JsonValue) : Except JsError JsonValue :=
  (runTransformersTrace ts openApi).1

/-- Embeds the `for (const transformer of transformers)` fold of
`applyTransformers` (first variant, lines 176-186), applied to the
already-instantiated transformers (the preceding `Promise.all` phase is
modelled by the caller supplying the instances). -/
def applyTransformers : List Transformer → JsonValue → Except JsError JsonValue
  | [], openApi => .ok openApi
  | transformer :: rest, openApi =>
    match transformer openApi with
    | .error e => .error e
    | .ok next => applyTransformers rest next

/-- Spread update `{...openApi, k: v}`: an existing key keeps its
position and gets the new value; a new key is appended at the end. -/
def setField : List (String × JsonValue) → String → JsonValue → List (String × JsonValue)
  | [], k, v => [(k, v)]
  | (k0, v0) :: rest, k, v =>
    if k0 = k then (k0, v) :: rest else (k0, v0) :: setField rest k v

/-- Reads `openApi[fieldName] || []` as spread into an array literal. A
present non-array value is not modelled (spreading a non-iterable throws
in JavaScript; the pipeline scenarios never produce one). -/
def getMarkerList (fields : List (String × JsonValue)) : List JsonValue :=
  match List.lookup "x-transformers" fields with
  | some (.arr xs) => xs
  | _ => []

/-- Embeds `SyncTransformer#transformOpenApi`
(src/test-lib/sync-transformer.js): rejects non-object documents, else
appends the marker `['sync-transformer', ...this.args]` to the
`x-transformers` field. -/
def syncTransformer (args : List JsonValue) : Transformer :=
  fun openApi =>
    match openApi with
    | .obj fields =>
      .ok (.obj (setField fields "x-transformers"
        (.arr (getMarkerList fields ++ [.arr (.str "sync-transformer" :: args)]))))
    | _ => .error ⟨"Error", "Invalid openApi object"⟩

/-- Embeds `AsyncTransformer#transformOpenApi`
(src/test-lib/async-transformer.js); identical to the sync transformer up
to the marker string, the promise wrapper being invisible after `await`. -/
def asyncTransformer (args : List JsonValue) : Transformer :=
  fun openApi =>
    match openApi with
    | .obj fields =>
      .ok (.obj (setField fields "x-transformers"
        (.arr (getMarkerList fields ++ [.arr (.str "async-transformer" :: args)]))))
    | _ => .error ⟨"Error", "Invalid openApi object"⟩

/-- Load promise whose module import completes at clock time `delay`
(all loads are started before the document is read). -/
structure DelayedLoad where
  delay : Nat
  result : Except JsError Transformer

/-- Transform loop of the second-variant `openapiTransformerMain` under
the single-threaded cooperative model: awaiting an already-started load
at time `now` resumes at `max now delay`; the trace records each
invoked specifier with the time its transform ran. -/
def runTransformersClocked :
    List (String × DelayedLoad) → Nat → JsonValue →
    Except JsError JsonValue × List (String × Nat)
  | [], _, openApi => (.ok openApi, [])
  | (spec, dl) :: rest, now, openApi =>
    match dl.result with
    | .error e => (.error (attributeError e spec), [])
    | .ok transformer =>
      match transformer openApi with
      | .error e => (.error (attributeError e spec), [(spec, max now dl.delay)])
      | .ok next =>
        ((runTransformersClocked rest (max now dl.delay) next).1,
          (spec, max now dl.delay) ::
            (runTransformersClocked rest (max now dl.delay) next).2)

/-- Forgets the completion times, keeping each load's outcome. -/
def stripDelays (l : List (String × DelayedLoad)) :
    List (String × Except JsError Transformer) :=
  l.map (fun p => (p.1, p.2.result))

/-- Event observed by the commander option handlers during `parse`, in
flag order: a `--config` flag (carrying the file's parsed transformers
list and path) or a `--transformer` flag. -/
inductive CliEvent where
  | config (transformers : List JsonValue) (configFilePath : Option String)
  | transformer (value : String)

/-- Element of `configsOrPromises` (first variant): a pending
`readConfigFile` promise (no `transformers` own property) or a plain
`{ transformers: [...] }` object accumulated from `--transformer`
flags. -/
inductive ConfigEntry where
  | filePromise (transformers : List JsonValue) (configFilePath : Option String)
  | cliConfig (transformers : List JsonValue)

/-- The transformers contributed by one entry (after `Promise.all`). -/
def ConfigEntry.transformerList : ConfigEntry → List JsonValue
  | .filePromise ts _ => ts
  | .cliConfig ts => ts

/-- Embeds the `option:config` handler (first variant, lines 278-283):
pushes the `readConfigFile` promise onto `configsOrPromises`. -/
def onOptionConfig (cs : List ConfigEntry) (ts : List JsonValue)
    (p : Option String) : List ConfigEntry :=
  cs ++ [.filePromise ts p]

/-- Embeds the `option:transformer` handler (first variant, lines
289-296): when the last entry is a plain object with a `transformers`
property it is extended in place; otherwise (empty list, or last entry a
pending config promise, which has no such property) a fresh
`{ transformers: [transformer] }` is pushed. -/
def onOptionTransformer (cs : List ConfigEntry) (t : String) :
    List ConfigEntry :=
  match cs.getLast? with
  | some (.cliConfig ts) => cs.dropLast ++ [.cliConfig (ts ++ [.str t])]
  | _ => cs ++ [.cliConfig [.str t]]

/-- Folds the option events in flag order through the two handlers,
producing the final `configsOrPromises`. -/
def processEvents (events : List CliEvent) : List ConfigEntry :=
  events.foldl
    (fun cs ev =>
      match ev with
      | .config ts p => onOptionConfig cs ts p
      | .transformer t => onOptionTransformer cs t)
    []

/-- Pipeline order assembled from the command line:
`configs.flatMap(createTransformersForConfig)` in `applyTransformers`
(first variant, lines 176-178) keeps both the config order and each
config's internal order. -/
def assembledPipeline (events : List CliEvent) : List JsonValue :=
  ((processEvents events).map ConfigEntry.transformerList).flatten

/-- Models `String.prototype.startsWith` on character lists (so concrete
instances evaluate in the kernel). -/
def jsStartsWith (s pre : String) : Bool :=
  List.isPrefixOf pre.data s.data

/-- Node `path.isAbsolute` (POSIX). -/
def pathIsAbsolute (p : String) : Bool :=
  jsStartsWith p "/"

/-- Node `path.resolve(p)` against working directory `cwd`, for the
single-segment arguments used here (no `.`/`..` normalization needed). -/
def pathResolve (cwd p : String) : String :=
  if pathIsAbsolute p then p else cwd ++ "/" ++ p

/-- Node `path.dirname` on the character list: everything before the
last `/` (`.` when there is no slash, `/` when the only slash leads);
arguments here never carry trailing slashes. -/
def dirnameChars (l : List Char) : List Char :=
  match l.reverse.dropWhile (fun c => c != '/') with
  | [] => ['.']
  | [_] => ['/']
  | _ :: rest => rest.reverse

/-- Node `path.dirname` (POSIX). -/
def pathDirname (p : String) : String :=
  ⟨dirnameChars p.data⟩

/-- Module resolution request handed to the host resolver
(`require.resolve(id, { paths })`); the lookup itself is the external
module system. -/
structure ResolveRequest where
  id : String
  paths : Option (List String)
  deriving DecidableEq

/-- Embeds `makeResolver` of the first variant (lines 146-152): the
`require.resolve` call issued for a specifier, with
`paths: [path.dirname(parent)]` when a parent path is given. -/
def makeResolverRequest (id : String) (parent : Option String) : ResolveRequest :=
  { id := id, paths := parent.map (fun p => [pathDirname p]) }

/-- A `file:` URL, as produced by `pathToFileURL` (percent-encoding of the
path is not modelled; the claims never exercise it). -/
structure FileUrl where
  path : String
  deriving DecidableEq

/-- Node `url.pathToFileURL` (the `.href` string carries the same path). -/
def pathToFileURL (p : String) : FileUrl := ⟨p⟩

/-- Node `url.fileURLToPath`. -/
def fileURLToPath (u : FileUrl) : String := u.path

/-- Conversion of a `file:` URL given as a raw string (the
`id.startsWith('file:')` branch of the second-variant `makeResolver`):
drops the `file://` scheme prefix. -/
def fileUrlStringToPath (s : String) : String := s.drop 7

/-- Embeds `makeResolver` of the second variant (lines 422-428): a
`file:` specifier is first converted to a path; the lookup is rooted at
`path.dirname(fileURLToPath(parent))` when a parent URL is given. -/
def makeResolverRequest2 (id : String) (parent : Option FileUrl) : ResolveRequest :=
  { id := if jsStartsWith id "file:" then fileUrlStringToPath id else id,
    paths := parent.map (fun p => [pathDirname (fileURLToPath p)]) }

/-- Embeds `cwdUrl` of the second-variant `openapiTransformerMain` (line
599): the `file:` URL of a dummy file in the working directory, used as
resolution parent for every CLI `--transformer`. -/
def cwdUrl (cwd : String) : FileUrl :=
  pathToFileURL (pathResolve cwd "dummy.js")

/-- Resolution request that `loadTransformer(t, cwdUrl)` issues for a CLI
`--transformer` value `t` under working directory `cwd`. -/
def cliResolveRequest (cwd : String) (t : String) : ResolveRequest :=
  makeResolverRequest2 t (some (cwdUrl cwd))

/-- Specifier of a validated config `transformers` entry:
`const [name, ...options] = Array.isArray(transformer) ? transformer :
[transformer]` (entries accepted by `readConfigFile` always yield a
string name; the fallback is unreachable there). -/
def entryName : JsonValue → String
  | .str s => s
  | .arr (.str s :: _) => s
  | _ => ""

/-- Resolution requests issued by `createTransformersForConfig` (first
variant, lines 162-168): `resolveParent` is `path.resolve(configFilePath)`
when the config came from a file, else absent (CLI-accumulated config). -/
def configResolveRequests (cwd : String) (cfg : Config) : List ResolveRequest :=
  cfg.transformers.map
    (fun t => makeResolverRequest (entryName t)
      (cfg.configFilePath.map (pathResolve cwd)))

/-- Item written to stdout by the second-variant `openapiTransformerMain`:
the serialized final document (`JSON.stringify` + exponential
replacement + newline, modelled by carrying the document value) or the
`package.json` version line. -/
inductive OutItem where
  | doc (v : JsonValue)
  | version (s : String)

/-- Whether a stdout item is the serialized document. -/
def OutItem.isDoc : OutItem → Bool
  | .doc _ => true
  | .version _ => false

/-- Item written to stderr by the catch clause (`${err.stack}\n`). -/
inductive ErrItem where
  | errStack (e : JsError)

/-- Outcome of `command.parse(args)` (second variant): normal parse with
the accumulated `--transformer` values (each paired with the outcome of
its `loadTransformer` promise, supplied by the module system); the
`option:version` early throw; or a commander throw carrying its
`exitCode` (commander has already printed its own message). -/
inductive ParseResult where
  | ok (transformers : List (String × Except JsError Transformer))
  | version (v : String)
  | failed (exitCode : Option Int)

/-- External behavior surrounding one `openapiTransformerMain` call: the
JavaScript-level shape of `args`/`options` (as tested by the five type
checks), and the outcomes of argument parsing, document reading
(`readJsonOrYaml`), transformer loading, and the final `streamWrite`. -/
structure MainEnv where
  argsIsArray : Bool
  argsLength : Nat
  optionsIsObject : Bool
  stdinHasOn : Bool
  stdoutHasWrite : Bool
  stderrHasWrite : Bool
  parse : ParseResult
  readDoc : Except JsError JsonValue
  writeError : Option JsError

/-- Result of `openapiTransformerMain`: a rejected `TypeError`, or a
resolved exit code together with what the call wrote to stdout and
stderr. -/
inductive MainOutcome where
  | typeError (message : String)
  | exit (code : Int) (stdout : List OutItem) (stderr : List ErrItem)

/-- Whether the call rejected with a TypeError. -/
def MainOutcome.isTypeError : MainOutcome → Prop
  | .typeError _ => True
  | .exit _ _ _ => False

/-- The five argument type checks at the top of `openapiTransformerMain`
(second variant, lines 506-522), first failing check wins. -/
def argsTypeError (env : MainEnv) : Option String :=
  if env.argsIsArray = false ∨ env.argsLength < 2 then
    some "args must be an Array with at least 2 items"
  else if env.optionsIsObject = false then
    some "options must be an object"
  else if env.stdinHasOn = false then
    some "options.stdin must be a stream.Readable"
  else if env.stdoutHasWrite = false then
    some "options.stdout must be a stream.Writable"
  else if env.stderrHasWrite = false then
    some "options.stderr must be a stream.Writable"
  else
    none

/-- Embeds the second-variant `openapiTransformerMain` (lines 506-629):
type checks, version / parse-failure early returns (`errParse.exitCode`
defaulting to 1), then the try block: read the document, fold it through
the transformers with error attribution, serialize and write; any thrown
error is written to stderr and the call resolves with 1. A failed stdout
write emits no (complete) document. -/
def openapiTransformerMain (env : MainEnv) : MainOutcome :=
  match argsTypeError env with
  | some m => .typeError m
  | none =>
    match env.parse with
    | .version v => .exit 0 [.version v] []
    | .failed ec => .exit (ec.getD 1) [] []
    | .ok txs =>
      match env.readDoc with
      | .error e => .exit 1 [] [.errStack e]
      | .ok openApi =>
        match runTransformers txs openApi with
        | .error e => .exit 1 [] [.errStack e]
        | .ok final =>
          match env.writeError with
          | some e => .exit 1 [] [.errStack e]
          | none => .exit 0 [.doc final] []

/-- Failure of the step for reference `r` at document `doc`: the load
promise itself rejected, or the loaded transformer's transform threw. -/
def stepFails (r : Except JsError Transformer) (doc : JsonValue)
    (e : JsError) : Prop :=
  match r with
  | .error e0 => e0 = e
  | .ok transformer => transformer doc = .error e

/-- C1: for a command line declaring CLI transformer `A`, then a config
file whose transformers list is `[C, D]`, then CLI transformer `B` (in
that flag order), the assembled pipeline order is `[A, C, D, B]`: the
file's transformers sit at the `--config` flag's position among the
`--transformer` flags, neither always first nor always last. -/
theorem c1_config_flag_position (A B : String) (C D : JsonValue)
    (p : Option String) :
    assembledPipeline
        [.transformer A, .config [C, D] p, .transformer B] =
      [.str A, C, D, .str B] := by
  simp [assembledPipeline, processEvents, onOptionConfig, onOptionTransformer,
    ConfigEntry.transformerList]

/-- C5: running the pipeline on `{}` with the single reference
`("sync-transformer", [])` yields
`{"x-transformers": [["sync-transformer"]]}`, and with
`[("sync-transformer", []), ("async-transformer", [])]` yields both
markers in declared order, each step's output feeding the next. -/
theorem c5_marker_scenarios :
    runTransformers [("sync-transformer", .ok (syncTransformer []))]
        (.obj []) =
      .ok (.obj [("x-transformers", .arr [.arr [.str "sync-transformer"]])]) ∧
    runTransformers
        [("sync-transformer", .ok (syncTransformer [])),
         ("async-transformer", .ok (asyncTransformer []))]
        (.obj []) =
      .ok (.obj [("x-transformers",
        .arr [.arr [.str "sync-transformer"],
              .arr [.str "async-transformer"]])]) :=
  ⟨rfl, rfl⟩

/-- C9: the empty ordered reference list returns the input document
value unchanged, both as the `applyTransformers` fold (first variant)
and as the transform loop of the second variant. -/
theorem c9_empty_pipeline_identity (doc : JsonValue) :
    applyTransformers [] doc = .ok doc ∧
    runTransformers [] doc = .ok doc :=
  ⟨rfl, rfl⟩

/-- C6 counterexample: the claim says a `transformers` entry `""` fails
configuration validation before resolution, but `readConfigFile` accepts
the configuration `{"transformers": [""]}` ("" is a string, so every
check passes). -/
theorem c6_counterexample :
    readConfigFile (.obj [("transformers", .arr [.str ""])])
        (some "/etc/conf.json") =
      .ok ⟨[.str ""], some "/etc/conf.json"⟩ :=
  rfl

/-- C6 amended: an empty-string specifier is not rejected by
configuration validation; it is accepted, and
`createTransformersForConfig` then issues a module-resolution request
with id `""` rooted at the config file's directory — the failure, if
any, arises at resolution time. -/
theorem c6_empty_specifier_reaches_resolver (cwd : String) :
    readConfigFile (.obj [("transformers", .arr [.str ""])])
        (some "/etc/conf.json") =
      .ok ⟨[.str ""], some "/etc/conf.json"⟩ ∧
    configResolveRequests cwd ⟨[.str ""], some "/etc/conf.json"⟩ =
      [{ id := "", paths := some ["/etc"] }] :=
  ⟨rfl, rfl⟩

/-- C7: the claim (and the `OpenapiTransformerCliOptions` typedef in the
same file, which marks `transformers` as optional) says a config object
without a `transformers` field is accepted; but after the explicit
`transformers !== undefined` guard, `readConfigFile` iterates the absent
property with `for...of`, throwing a TypeError on `{}` — while an
explicit empty array is accepted and contributes nothing to the
pipeline. -/
theorem c7_absent_transformers_bug (p : Option String) (cwd : String) :
    readConfigFile (.obj []) p =
      .error ⟨"TypeError", "transformers is not iterable"⟩ ∧
    readConfigFile (.obj [("transformers", .arr [])]) p = .ok ⟨[], p⟩ ∧
    configResolveRequests cwd ⟨[], p⟩ = [] :=
  ⟨rfl, rfl, rfl⟩

/-- Clocked run versus the untimed loop: same result, same invocation
order, timestamps at or after the start time and nondecreasing. -/
lemma runTransformersClocked_spec (refs : List (String × DelayedLoad)) :
    ∀ (now : Nat) (doc : JsonValue),
      (runTransformersClocked refs now doc).1 =
        (runTransformersTrace (stripDelays refs) doc).1 ∧
      List.map Prod.fst (runTransformersClocked refs now doc).2 =
        (runTransformersTrace (stripDelays refs) doc).2 ∧
      (∀ q ∈ (runTransformersClocked refs now doc).2, now ≤ q.2) ∧
      List.Chain' (fun q q2 => q.2 ≤ q2.2)
        (runTransformersClocked refs now doc).2 := by
  induction refs with
  | nil =>
    intro now doc
    simp [runTransformersClocked, runTransformersTrace, stripDelays]
  | cons hd rest ih =>
    intro now doc
    obtain ⟨spec, dl⟩ := hd
    match hres : dl.result with
    | .error e =>
      simp [runTransformersClocked, runTransformersTrace, stripDelays, hres]
    | .ok transformer =>
      match htx : transformer doc with
      | .error e =>
        simp [runTransformersClocked, runTransformersTrace, stripDelays,
          hres, htx]
      | .ok next =>
        have ihn := ih (max now dl.delay) next
        refine ⟨?_, ?_, ?_, ?_⟩
        · simpa [runTransformersClocked, runTransformersTrace, stripDelays,
            hres, htx] using ihn.1
        · simpa [runTransformersClocked, runTransformersTrace, stripDelays,
            hres, htx] using ihn.2.1
        · intro q hq
          simp only [runTransformersClocked, hres, htx,
            List.mem_cons] at hq
          rcases hq with hq | hq
          · subst hq
            exact Nat.le_max_left now dl.delay
          · exact le_trans (Nat.le_max_left now dl.delay) (ihn.2.2.1 q hq)
        · simp only [runTransformersClocked, hres, htx]
          refine List.chain'_cons'.mpr ⟨?_, ihn.2.2.2⟩
          intro q hq
          exact ihn.2.2.1 q (List.mem_of_mem_head? hq)

/-- C4: the fold applies transform operations in declared reference order
regardless of when each module import completes: for every assignment of
load-completion delays, the clocked run returns the same result as the
untimed declared-order loop, invokes exactly the same specifiers in the
same declared order, and its invocation timestamps are nondecreasing (so
a reference earlier in the list — e.g. `A` in `[A, B]` with `A`'s import
delayed — still transforms no later than any following one). -/
theorem c4_declared_order_independent_of_load_completion
    (refs : List (String × DelayedLoad)) (now : Nat) (doc : JsonValue) :
    (runTransformersClocked refs now doc).1 =
      runTransformers (stripDelays refs) doc ∧
    List.map Prod.fst (runTransformersClocked refs now doc).2 =
      (runTransformersTrace (stripDelays refs) doc).2 ∧
    List.Chain' (fun q q2 => q.2 ≤ q2.2)
      (runTransformersClocked refs now doc).2 := by
  obtain ⟨h1, h2, _, h4⟩ := runTransformersClocked_spec refs now doc
  exact ⟨h1, h2, h4⟩

/-- When a prefix of the reference list folds successfully, running the
whole list continues from the prefix's output document, concatenating
the traces. -/
lemma runTransformersTrace_append_ok
    (xs ys : List (String × Except JsError Transformer)) :
    ∀ (doc mid : JsonValue) (tr : List String),
      runTransformersTrace xs doc = (.ok mid, tr) →
      runTransformersTrace (xs ++ ys) doc =
        ((runTransformersTrace ys mid).1,
          tr ++ (runTransformersTrace ys mid).2) := by
  induction xs with
  | nil =>
    intro doc mid tr h
    simp only [runTransformersTrace, Prod.mk.injEq] at h
    obtain ⟨h1, h2⟩ := h
    cases h1
    subst h2
    simp
  | cons hd rest ih =>
    intro doc mid tr h
    obtain ⟨spec, transformerP⟩ := hd
    match hp : transformerP with
    | .error e =>
      rw [runTransformersTrace] at h
      simp only [Prod.mk.injEq] at h
      exact absurd h.1 (by simp)
    | .ok transformer =>
      match htx : transformer doc with
      | .error e =>
        rw [runTransformersTrace, htx] at h
        simp only [Prod.mk.injEq] at h
        exact absurd h.1 (by simp)
      | .ok next =>
        rw [runTransformersTrace, htx] at h
        simp only [Prod.mk.injEq] at h
        obtain ⟨h1, h2⟩ := h
        have hrest : runTransformersTrace rest next =
            (.ok mid, (runTransformersTrace rest next).2) := by
          rw [← h1]
        have hys := ih next mid (runTransformersTrace rest next).2 hrest
        simp only [List.cons_append, runTransformersTrace, htx, hys]
        subst h2
        simp [hys]

/-- Trace contribution of the failing step itself: its transform is
invoked only when its load promise had resolved. -/
def invokedOnFailure (r : Except JsError Transformer) (spec : String) :
    List String :=
  match r with
  | .ok _ => [spec]
  | .error _ => []

/-- C2: when some transformer's instantiation (rejected load promise) or
transform operation fails, the run surfaces an error whose message ends
with ` applying transformer <specifier>`, invokes no transformer later
in the declared order (the invocation trace stops at the failing
reference), writes nothing to stdout, and resolves with exit code 1
writing only that error to stderr. -/
theorem c2_failure_attribution_and_fail_fast
    (env : MainEnv) (pre post : List (String × Except JsError Transformer))
    (spec : String) (r : Except JsError Transformer)
    (doc0 mid : JsonValue) (preTrace : List String) (e : JsError)
    (hargs : argsTypeError env = none)
    (hparse : env.parse = .ok (pre ++ (spec, r) :: post))
    (hread : env.readDoc = .ok doc0)
    (hpre : runTransformersTrace pre doc0 = (.ok mid, preTrace))
    (hfail : stepFails r mid e) :
    openapiTransformerMain env =
      .exit 1 [] [.errStack (attributeError e spec)] ∧
    (attributeError e spec).message =
      e.message ++ " applying transformer " ++ spec ∧
    runTransformersTrace (pre ++ (spec, r) :: post) doc0 =
      (.error (attributeError e spec),
        preTrace ++ invokedOnFailure r spec) := by
  have hstep : runTransformersTrace ((spec, r) :: post) mid =
      (.error (attributeError e spec), invokedOnFailure r spec) := by
    match hr : r with
    | .error e0 =>
      have he : e0 = e := by simpa [stepFails, hr] using hfail
      subst he
      rw [runTransformersTrace]
      simp [invokedOnFailure]
    | .ok transformer =>
      have htx : transformer mid = .error e := by
        simpa [stepFails, hr] using hfail
      rw [runTransformersTrace, htx]
      simp [invokedOnFailure]
  have hall : runTransformersTrace (pre ++ (spec, r) :: post) doc0 =
      (.error (attributeError e spec),
        preTrace ++ invokedOnFailure r spec) := by
    rw [runTransformersTrace_append_ok pre ((spec, r) :: post) doc0 mid
      preTrace hpre, hstep]
  refine ⟨?_, rfl, hall⟩
  have hrun : runTransformers (pre ++ (spec, r) :: post) doc0 =
      .error (attributeError e spec) := by
    rw [runTransformers, hall]
  simp only [openapiTransformerMain, hargs, hparse, hread, hrun]

/-- C2 witness: with `t1` succeeding, `t2`'s load rejected with `Cannot
find module`, and `t3` declared after it, the run exits 1 with only the
attributed error on stderr, the trace is `["t1"]` (neither `t2`'s
transform nor `t3` runs), and the message ends with the specifier. -/
theorem c2_failure_attribution_and_fail_fast_witness :
    openapiTransformerMain
        { argsIsArray := true, argsLength := 2, optionsIsObject := true,
          stdinHasOn := true, stdoutHasWrite := true, stderrHasWrite := true,
          parse := .ok
            [("t1", .ok (syncTransformer [])),
             ("t2", .error ⟨"Error", "Cannot find module"⟩),
             ("t3", .ok (syncTransformer []))],
          readDoc := .ok (.obj []), writeError := none } =
      .exit 1 []
        [.errStack (attributeError ⟨"Error", "Cannot find module"⟩ "t2")] ∧
    (attributeError ⟨"Error", "Cannot find module"⟩ "t2").message =
      "Cannot find module" ++ " applying transformer " ++ "t2" ∧
    runTransformersTrace
        [("t1", .ok (syncTransformer [])),
         ("t2", .error ⟨"Error", "Cannot find module"⟩),
         ("t3", .ok (syncTransformer []))] (.obj []) =
      (.error (attributeError ⟨"Error", "Cannot find module"⟩ "t2"),
        ["t1"]) :=
  c2_failure_attribution_and_fail_fast
    { argsIsArray := true, argsLength := 2, optionsIsObject := true,
      stdinHasOn := true, stdoutHasWrite := true, stderrHasWrite := true,
      parse := .ok
        [("t1", .ok (syncTransformer [])),
         ("t2", .error ⟨"Error", "Cannot find module"⟩),
         ("t3", .ok (syncTransformer []))],
      readDoc := .ok (.obj []), writeError := none }
    [("t1", .ok (syncTransformer []))]
    [("t3", .ok (syncTransformer []))]
    "t2" (.error ⟨"Error", "Cannot find module"⟩)
    (.obj [])
    (.obj [("x-transformers", .arr [.arr [.str "sync-transformer"]])])
    ["t1"] ⟨"Error", "Cannot find module"⟩
    rfl rfl rfl rfl rfl

/-- Dropping while a predicate holds skips a block that satisfies it
everywhere. -/
lemma dropWhile_append_of_all {p : Char → Bool} :
    ∀ (m l : List Char), (∀ c ∈ m, p c = true) →
      (m ++ l).dropWhile p = l.dropWhile p := by
  intro m
  induction m with
  | nil => intro l _; rfl
  | cons c cs ih =>
    intro l hm
    have hc : p c = true := hm c (List.mem_cons_self c cs)
    simp only [List.cons_append, List.dropWhile_cons, hc, if_true]
    exact ih l (fun c2 hc2 => hm c2 (List.mem_cons_of_mem c hc2))

/-- Directory of `l ++ "/" ++ m` is `l` when the final segment `m` has no
slash and `l` is nonempty. -/
lemma dirnameChars_append (l m : List Char) (hl : l ≠ [])
    (hm : ∀ c ∈ m, (c != '/') = true) :
    dirnameChars (l ++ '/' :: m) = l := by
  unfold dirnameChars
  rw [List.reverse_append, List.reverse_cons, List.append_assoc,
    List.singleton_append,
    dropWhile_append_of_all m.reverse ('/' :: l.reverse)
      (fun c hc => hm c (List.mem_reverse.mp hc))]
  have hdrop : List.dropWhile (fun c => c != '/') ('/' :: l.reverse) =
      '/' :: l.reverse := by
    simp [List.dropWhile_cons]
  rw [hdrop]
  match hrev : l.reverse with
  | [] => exact absurd (by simpa using congrArg List.reverse hrev) hl
  | a :: as =>
    show (a :: as).reverse = l
    rw [← hrev, List.reverse_reverse]

/-- Directory of `cwd ++ "/dummy.js"` is `cwd` for a nonempty working
directory. -/
lemma pathDirname_cwd_dummy (cwd : String) (h : cwd ≠ "") :
    pathDirname (cwd ++ "/" ++ "dummy.js") = cwd := by
  have hdata : (cwd ++ "/" ++ "dummy.js").data =
      cwd.data ++ '/' :: "dummy.js".data := by
    simp [String.data_append]
  have hne : cwd.data ≠ [] := by
    intro hnil
    exact h (by
      have : cwd = "" := String.ext (by simpa using hnil)
      exact this)
  have : dirnameChars (cwd ++ "/" ++ "dummy.js").data = cwd.data := by
    rw [hdata]
    exact dirnameChars_append cwd.data "dummy.js".data hne (by decide)
  unfold pathDirname
  rw [this]

/-- C3: a CLI-declared `--transformer` value that is not a `file:` URL
(relative or bare specifier) is handed to the module resolver unchanged,
as a standard lookup rooted at the current working directory of the
process (`paths: [cwd]`, via the dummy-file parent URL in the working
directory). -/
theorem c3_cli_transformer_resolved_from_cwd (cwd t : String)
    (hcwd : cwd ≠ "") (ht : jsStartsWith t "file:" = false) :
    cliResolveRequest cwd t = { id := t, paths := some [cwd] } := by
  have habs : pathIsAbsolute "dummy.js" = false := by decide
  have hres : pathResolve cwd "dummy.js" = cwd ++ "/" ++ "dummy.js" := by
    simp [pathResolve, habs]
  simp [cliResolveRequest, makeResolverRequest2, cwdUrl, pathToFileURL,
    fileURLToPath, ht, hres, pathDirname_cwd_dummy cwd hcwd]

/-- C3 witness: the bare specifier `my-mod` under working directory
`/home/user` is resolved as a standard lookup rooted at `/home/user`. -/
theorem c3_cli_transformer_resolved_from_cwd_witness :
    cliResolveRequest "/home/user" "my-mod" =
      { id := "my-mod", paths := some ["/home/user"] } :=
  c3_cli_transformer_resolved_from_cwd "/home/user" "my-mod"
    (by decide) (by decide)

/-- The three `readConfigFile` messages describing a malformed
`transformers` entry shape. -/
def isShapeError (r : Except JsError Config) : Prop :=
  match r with
  | .error e =>
    e.message = "config.transformers tuples must at least 1 element" ∨
    e.message = "config.transformers tuple first item must be a string" ∨
    e.message = "config.transformers items must be strings or Arrays"
  | .ok _ => False

/-- An entry check failure always carries one of the three shape
messages. -/
lemma checkEntry_message (t : JsonValue) (e : JsError)
    (h : checkEntry t = some e) :
    e.message = "config.transformers tuples must at least 1 element" ∨
    e.message = "config.transformers tuple first item must be a string" ∨
    e.message = "config.transformers items must be strings or Arrays" := by
  match t with
  | .null | .bool _ | .num _ | .obj _ =>
    simp only [checkEntry, Option.some.injEq] at h
    subst h
    simp
  | .str s => simp [checkEntry] at h
  | .arr [] =>
    simp only [checkEntry, Option.some.injEq] at h
    subst h
    simp
  | .arr (first :: rest) =>
    match first with
    | .str s => simp [checkEntry] at h
    | .null | .bool _ | .num _ | .arr _ | .obj _ =>
      simp only [checkEntry, Option.some.injEq] at h
      subst h
      simp

/-- An entry that is neither a string nor an array with a string first
element fails the entry check. -/
lemma checkEntry_of_bad_shape (t : JsonValue)
    (h1 : ∀ s, t ≠ .str s)
    (h2 : ∀ s rest, t ≠ .arr (.str s :: rest)) :
    checkEntry t ≠ none := by
  match t with
  | .null | .bool _ | .num _ | .obj _ => simp [checkEntry]
  | .str s => exact absurd rfl (h1 s)
  | .arr [] => simp [checkEntry]
  | .arr (first :: rest) =>
    match first with
    | .str s => exact absurd rfl (h2 s rest)
    | .null | .bool _ | .num _ | .arr _ | .obj _ => simp [checkEntry]

/-- A bad entry somewhere in the list makes the whole entry scan fail. -/
lemma checkEntries_of_mem (ts : List JsonValue) (entry : JsonValue)
    (hmem : entry ∈ ts) (hbad : checkEntry entry ≠ none) :
    ∃ e t2, checkEntries ts = some e ∧ t2 ∈ ts ∧ checkEntry t2 = some e := by
  induction ts with
  | nil => cases hmem
  | cons a rest ih =>
    match ha : checkEntry a with
    | some e =>
      exact ⟨e, a, by simp [checkEntries, ha], List.mem_cons_self a rest,
        ha⟩
    | none =>
      rcases List.mem_cons.mp hmem with heq | hmemr
      · subst heq
        exact absurd ha hbad
      · obtain ⟨e, t2, hce, ht2, h2⟩ := ih hmemr
        exact ⟨e, t2, by simp [checkEntries, ha, hce],
          List.mem_cons_of_mem a ht2, h2⟩

/-- C8: configuration validation is a closed schema. First conjunct: the
`Object.keys` scan finds a top-level key other than `transformers` as
soon as one exists; second: whatever that scan finds is in the config,
is not `transformers`, and makes `readConfigFile` fail with an error
naming that key; third: when all keys are `transformers` and the
transformers array contains an entry that is neither a string nor an
array with a string first element, `readConfigFile` fails with one of
the three messages naming the offending entry shape. -/
theorem c8_closed_schema (fields : List (String × JsonValue))
    (p : Option String) :
    ((∃ kv ∈ fields, kv.1 ≠ "transformers") →
      (fields.find? (fun kv => kv.1 != "transformers")).isSome = true) ∧
    (∀ kv0, fields.find? (fun kv => kv.1 != "transformers") = some kv0 →
      kv0 ∈ fields ∧ kv0.1 ≠ "transformers" ∧
      readConfigFile (.obj fields) p =
        .error ⟨"Error",
          "unrecognized key \x27" ++ kv0.1 ++ "\x27 in config"⟩) ∧
    (∀ ts entry, (∀ kv ∈ fields, kv.1 = "transformers") →
      List.lookup "transformers" fields = some (.arr ts) → entry ∈ ts →
      (∀ s, entry ≠ .str s) → (∀ s rest, entry ≠ .arr (.str s :: rest)) →
      isShapeError (readConfigFile (.obj fields) p)) := by
  refine ⟨?_, ?_, ?_⟩
  · intro ⟨kv, hmem, hne⟩
    rw [List.find?_isSome]
    exact ⟨kv, hmem, by simpa using hne⟩
  · intro kv0 hfind
    refine ⟨List.mem_of_find?_eq_some hfind, ?_, ?_⟩
    · have := List.find?_some hfind
      simpa using this
    · simp only [readConfigFile, hfind]
  · intro ts entry hkeys hlookup hmem h1 h2
    have hfind : fields.find? (fun kv => kv.1 != "transformers") = none := by
      rw [List.find?_eq_none]
      intro kv hkv
      simpa using hkeys kv hkv
    obtain ⟨e, t2, hce, _, h2e⟩ :=
      checkEntries_of_mem ts entry hmem (checkEntry_of_bad_shape entry h1 h2)
    simp only [readConfigFile, hfind, hlookup, hce, isShapeError]
    exact checkEntry_message t2 e h2e

/-- C8 witness: the config `{"unknown": null}` is rejected naming the key
`unknown`, and the config `{"transformers": [null]}` is rejected with a
shape message. -/
theorem c8_closed_schema_witness :
    (("unknown", JsonValue.null) ∈ [("unknown", JsonValue.null)] ∧
      ("unknown", JsonValue.null).1 ≠ "transformers" ∧
      readConfigFile (.obj [("unknown", JsonValue.null)]) none =
        .error ⟨"Error", "unrecognized key \x27unknown\x27 in config"⟩) ∧
    isShapeError
      (readConfigFile (.obj [("transformers", .arr [.null])]) none) :=
  ⟨(c8_closed_schema [("unknown", JsonValue.null)] none).2.1
      ("unknown", JsonValue.null) rfl,
    (c8_closed_schema [("transformers", .arr [.null])] none).2.2
      [.null] .null
      (by intro kv hkv; rw [List.mem_singleton] at hkv; rw [hkv])
      rfl (List.mem_singleton.mpr rfl)
      (fun s h => JsonValue.noConfusion h)
      (fun s rest h => JsonValue.noConfusion h)⟩

/-- The disjunction of the five argument-type defects that make
`openapiTransformerMain` reject with a TypeError. -/
def badArgs (env : MainEnv) : Prop :=
  env.argsIsArray = false ∨ env.argsLength < 2 ∨
  env.optionsIsObject = false ∨ env.stdinHasOn = false ∨
  env.stdoutHasWrite = false ∨ env.stderrHasWrite = false

/-- The type checks pass exactly when none of the five defects holds. -/
lemma argsTypeError_none_iff (env : MainEnv) :
    argsTypeError env = none ↔ ¬ badArgs env := by
  obtain ⟨a, n, o, si, so, se, pr, rd, wr⟩ := env
  by_cases hn : n < 2 <;>
    cases a <;> cases o <;> cases si <;> cases so <;> cases se <;>
      simp [argsTypeError, badArgs, hn]

/-- C10 counterexample: with `-V`, the call resolves with exit code 0
while writing only the version line — never the serialized document — to
stdout, so "resolves with 0 exactly when the serialized final document
was written to stdout" fails as stated. -/
theorem c10_counterexample :
    openapiTransformerMain
        { argsIsArray := true, argsLength := 2, optionsIsObject := true,
          stdinHasOn := true, stdoutHasWrite := true,
          stderrHasWrite := true, parse := .version "1.2.3",
          readDoc := .ok .null, writeError := none } =
      .exit 0 [.version "1.2.3"] [] ∧
    ([OutItem.version "1.2.3"].all fun o => !o.isDoc) = true :=
  ⟨rfl, rfl⟩

/-- C10 amended: `openapiTransformerMain` rejects with a TypeError
exactly for the five argument-type defects; a parse failure resolves
with the parser-supplied exit code (1 by default, the parser having
printed its own message); a read, transform, or write failure resolves
with 1 writing only that error to stderr; the document appears on stdout
only on a 0 exit; and the call resolves with 0 exactly when the
serialized final document or the version line was written to stdout, or
the parser terminated with its own exit code 0 (help). -/
theorem c10_exit_code_characterization (env : MainEnv) :
    ((openapiTransformerMain env).isTypeError ↔ badArgs env) ∧
    (∀ c out errs, openapiTransformerMain env = .exit c out errs →
      ((c = 0 ↔ ((∃ v, OutItem.doc v ∈ out) ∨
          (∃ s, OutItem.version s ∈ out) ∨
          (∃ ec, env.parse = .failed ec ∧ ec.getD 1 = 0))) ∧
       ((∃ v, OutItem.doc v ∈ out) → c = 0 ∧ errs = []) ∧
       (∀ ec, env.parse = .failed ec →
          c = ec.getD 1 ∧ out = [] ∧ errs = []) ∧
       (∀ txs e, env.parse = .ok txs → env.readDoc = .error e →
          c = 1 ∧ out = [] ∧ errs = [.errStack e]) ∧
       (∀ txs doc e, env.parse = .ok txs → env.readDoc = .ok doc →
          runTransformers txs doc = .error e →
          c = 1 ∧ out = [] ∧ errs = [.errStack e]) ∧
       (∀ txs doc final e, env.parse = .ok txs → env.readDoc = .ok doc →
          runTransformers txs doc = .ok final → env.writeError = some e →
          c = 1 ∧ out = [] ∧ errs = [.errStack e]))) := by
  by_cases hb : badArgs env
  · have hne : argsTypeError env ≠ none := by
      intro h
      exact (argsTypeError_none_iff env).mp h hb
    obtain ⟨m, hm⟩ := Option.ne_none_iff_exists'.mp hne
    constructor
    · simp [openapiTransformerMain, hm, MainOutcome.isTypeError, hb]
    · intro c out errs heq
      rw [openapiTransformerMain, hm] at heq
      exact absurd heq (by simp)
  · have hnone := (argsTypeError_none_iff env).mpr hb
    cases hp : env.parse with
    | version v =>
      have hmain : openapiTransformerMain env = .exit 0 [.version v] [] := by
        simp only [openapiTransformerMain, hnone, hp]
      constructor
      · rw [hmain]
        simp [MainOutcome.isTypeError, hb]
      · intro c out errs heq
        rw [hmain] at heq
        cases heq
        refine ⟨by simp [hp], by simp, ?_, ?_, ?_, ?_⟩ <;>
          intros <;> simp_all
    | failed ec =>
      have hmain : openapiTransformerMain env = .exit (ec.getD 1) [] [] := by
        simp only [openapiTransformerMain, hnone, hp]
      constructor
      · rw [hmain]
        simp [MainOutcome.isTypeError, hb]
      · intro c out errs heq
        rw [hmain] at heq
        cases heq
        refine ⟨by simp [hp], by simp, ?_, ?_, ?_, ?_⟩ <;>
          intros <;> simp_all
    | ok txs =>
      cases hr : env.readDoc with
      | error e =>
        have hmain : openapiTransformerMain env = .exit 1 [] [.errStack e] := by
          simp only [openapiTransformerMain, hnone, hp, hr]
        constructor
        · rw [hmain]
          simp [MainOutcome.isTypeError, hb]
        · intro c out errs heq
          rw [hmain] at heq
          cases heq
          refine ⟨by simp [hp], by simp, ?_, ?_, ?_, ?_⟩ <;>
            intros <;> simp_all
      | ok doc =>
        cases hrun : runTransformers txs doc with
        | error e =>
          have hmain : openapiTransformerMain env = .exit 1 [] [.errStack e] := by
            simp only [openapiTransformerMain, hnone, hp, hr, hrun]
          constructor
          · rw [hmain]
            simp [MainOutcome.isTypeError, hb]
          · intro c out errs heq
            rw [hmain] at heq
            cases heq
            refine ⟨by simp [hp], by simp, ?_, ?_, ?_, ?_⟩ <;>
              intros <;> simp_all
        | ok final =>
          cases hw : env.writeError with
          | some e =>
            have hmain : openapiTransformerMain env = .exit 1 [] [.errStack e] := by
              simp only [openapiTransformerMain, hnone, hp, hr, hrun, hw]
            constructor
            · rw [hmain]
              simp [MainOutcome.isTypeError, hb]
            · intro c out errs heq
              rw [hmain] at heq
              cases heq
              refine ⟨by simp [hp], by simp, ?_, ?_, ?_, ?_⟩ <;>
                intros <;> simp_all
          | none =>
            have hmain : openapiTransformerMain env = .exit 0 [.doc final] [] := by
              simp only [openapiTransformerMain, hnone, hp, hr, hrun, hw]
            constructor
            · rw [hmain]
              simp [MainOutcome.isTypeError, hb]
            · intro c out errs heq
              rw [hmain] at heq
              cases heq
              refine ⟨by simp, by simp, ?_, ?_, ?_, ?_⟩ <;>
                intros <;> simp_all

/-- C10 witness: at a run whose document read fails with a syntax error,
the characterization yields exit code 1 with only that error written to
stderr and an empty stdout. -/
theorem c10_exit_code_characterization_witness :
    (1 : Int) = 1 ∧ ([] : List OutItem) = [] ∧
      [ErrItem.errStack ⟨"SyntaxError", "Unexpected end of JSON input in -"⟩] =
        [ErrItem.errStack ⟨"SyntaxError", "Unexpected end of JSON input in -"⟩] :=
  ((c10_exit_code_characterization
      { argsIsArray := true, argsLength := 2, optionsIsObject := true,
        stdinHasOn := true, stdoutHasWrite := true, stderrHasWrite := true,
        parse := .ok [],
        readDoc := .error ⟨"SyntaxError", "Unexpected end of JSON input in -"⟩,
        writeError := none }).2
    1 [] [.errStack ⟨"SyntaxError", "Unexpected end of JSON input in -"⟩]
    rfl).2.2.2.1
    [] ⟨"SyntaxError", "Unexpected end of JSON input in -"⟩ rfl rfl

end OpenapiTransformerCli
